import Mathlib

/-!
# VisionGrade ML service — shallow embedding and verification

This file embeds the algorithmic core of the VisionGrade ML prediction
service (`ml-service/services/prediction_service.py`,
`ml-service/utils/error_handler.py`, `ml-service/services/database_service.py`,
`ml-service/app.py`) as executable Lean definitions, and proves or refutes
the specification's claims about it.

Conventions of the embedding:
* Python floats are modelled as exact rationals (`ℚ`); `numpy` means and
  population variances are exact rational arithmetic.
* Python dicts keyed by strings are modelled as insertion-ordered
  association lists (`List (String × _)`), with `dict.get`/membership/update
  helpers mirroring dict semantics (later writes overwrite in place,
  iteration follows first-insertion order).
* Fallible paths are modelled with `Except`/result structures carrying the
  `success`/`error` fields the Python code returns; code that catches every
  exception and returns an error dict is modelled as a total function.
* Python's `round(x, n)` (round-half-to-even on the decimal grid) is
  modelled exactly on `ℚ` by `pyRound`.
-/

namespace VisionGrade

/-- Python `round` to an integer: round half to even (banker's rounding). -/
def roundHalfEven (q : ℚ) : ℤ :=
  if q - ⌊q⌋ < 1/2 then ⌊q⌋
  else if 1/2 < q - ⌊q⌋ then ⌊q⌋ + 1
  else if ⌊q⌋ % 2 = 0 then ⌊q⌋ else ⌊q⌋ + 1

/-- Python `round(q, n)`: round half to even on the grid of multiples of `10^(-n)`. -/
def pyRound (q : ℚ) (n : ℕ) : ℚ :=
  (roundHalfEven (q * (10 ^ n : ℕ)) : ℚ) / (10 ^ n : ℕ)

/-- `numpy.mean` of a list of rationals (`0` on the empty list never arises in use). -/
def npMean (l : List ℚ) : ℚ := l.sum / l.length

/-- `numpy.var` of a list of rationals: population variance. -/
def npVar (l : List ℚ) : ℚ := npMean (l.map (fun x => (x - npMean l) ^ 2))

/-- Python `d.get(k, default)` on an association-list dict. -/
def dictGet (d : List (String × ℚ)) (k : String) (dflt : ℚ) : ℚ :=
  match d.find? (fun p => p.1 = k) with
  | some p => p.2
  | none => dflt

/-- Python `k in d` on an association-list dict. -/
def dictMem (d : List (String × ℚ)) (k : String) : Bool :=
  d.any (fun p => p.1 = k)

/-- Python `d[k] = v` on an association-list dict: overwrite in place when the
key exists, else append (dicts preserve insertion order). -/
def dictSet (d : List (String × ℚ)) (k : String) (v : ℚ) : List (String × ℚ) :=
  if d.any (fun p => p.1 = k) then
    d.map (fun p => if p.1 = k then (k, v) else p)
  else d ++ [(k, v)]

/-! ## Student records and the feature builder

`PredictionService._prepare_prediction_features` (prediction_service.py
lines 306–352) and `PredictionService._calculate_confidence` (lines 354–385)
read a `student_data` dict with a nested `marks` dict. We model exactly the
keys those functions access. -/

/-- The `student_data` dict as read by the prediction path: `marks` is the
nested exam-type → percentage dict; the remaining fields are the keys read
with `.get`, `none` standing for an absent key. -/
structure StudentData where
  student_id : Option ℤ := none
  subject_id : Option ℤ := none
  marks : List (String × ℚ) := []
  subject_type : Option String := none
  semester : Option ℚ := none
  attendance_percentage : Option ℚ := none
deriving DecidableEq, Repr

/-- The default `PredictionService.feature_columns` (prediction_service.py
lines 30–38). -/
def feature_columns : List String :=
  ["series_test_1_percentage", "series_test_2_percentage",
   "lab_internal_percentage", "average_internal_percentage",
   "subject_type_encoded", "semester", "attendance_percentage"]

/-- `PredictionService._prepare_prediction_features` (lines 306–352): extract
the three internal marks (`0` when absent), average the strictly positive
ones, fill each zero entry with that average when it is positive, recompute
the average from the filled values, then append subject-type encoding,
semester (default 1) and — since `attendance_percentage` is in
`feature_columns` — attendance (default 80.0). -/
def prepare_prediction_features (student_data : StudentData) : List ℚ :=
  let marks := student_data.marks
  let series_1 := dictGet marks "series_test_1" 0
  let series_2 := dictGet marks "series_test_2" 0
  let lab_internal := dictGet marks "lab_internal" 0
  let available_marks := [series_1, series_2, lab_internal].filter (fun m => 0 < m)
  let avg_internal := if available_marks.isEmpty then 0 else npMean available_marks
  let series_1 := if series_1 = 0 ∧ 0 < avg_internal then avg_internal else series_1
  let series_2 := if series_2 = 0 ∧ 0 < avg_internal then avg_internal else series_2
  let lab_internal := if lab_internal = 0 ∧ 0 < avg_internal then avg_internal else lab_internal
  let avg_internal := npMean [series_1, series_2, lab_internal]
  [series_1, series_2, lab_internal, avg_internal,
   if student_data.subject_type = some "lab" then 1 else 0,
   student_data.semester.getD 1,
   student_data.attendance_percentage.getD 80]

/-- The `internal_marks` list of `_calculate_confidence`
(prediction_service.py lines 376–377): the values of the internal exam types
whose stored mark is strictly positive. -/
def present_internal_marks (student_data : StudentData) : List ℚ :=
  (["series_test_1", "series_test_2", "lab_internal"].filter
    (fun e => 0 < dictGet student_data.marks e 0)).map
    (fun e => dictGet student_data.marks e 0)

/-- `PredictionService._calculate_confidence` (lines 354–385): base 0.5, plus
0.3 scaled by the fraction of present internal marks (line 371's count of
exam types with a positive stored mark), plus — when at least two internal
marks are present — a consistency bonus from their population variance,
clipped to [0, 1]. -/
def calculate_confidence (student_data : StudentData) : ℚ :=
  let available_internals : ℚ := ((["series_test_1", "series_test_2", "lab_internal"].filter
    (fun e => 0 < dictGet student_data.marks e 0)).length : ℚ)
  let confidence := 1/2 + available_internals / 3 * (3/10)
  let confidence :=
    if 2 ≤ (present_internal_marks student_data).length then
      confidence + max 0 ((100 - npVar (present_internal_marks student_data)) / 100) * (2/10)
    else confidence
  max 0 (min 1 confidence)

/-! ## Model registry and resolution

`PredictionService.predict_university_marks` (lines 230–304) resolves a model
from the in-memory `self.models` dict (keys in insertion order) with a
disk-lookup fallback for subject/general models, then predicts, clips and
packages the result. We model the registry state as the ordered list of
in-memory keys plus the set of filenames present in the model directory, and
the regressors as an abstract assignment `modelF` of a raw output to each
(model key, feature vector) pair. -/

/-- Registry state: in-memory model keys of `self.models` in insertion order,
and the filenames present in `self.model_path` on disk. -/
structure Registry where
  mem : List String := []
  disk : List String := []
deriving DecidableEq, Repr

/-- `self.model_version` as initialised (prediction_service.py line 29). -/
def model_version : String := "2.0.0"

/-- The model key the prediction path resolves to, following
prediction_service.py lines 242–271: `production_best` first, then the first
in-memory key with the `production_` prefix, then the subject-specific key
(`subject_{id}` when `subject_id` is truthy, else `general`) from memory or
disk, and otherwise the `ValueError` raised at line 271. -/
def resolve_model (reg : Registry) (subject_id : Option ℤ) : Except String String :=
  if reg.mem.contains "production_best" then .ok "production_best"
  else
    match reg.mem.find? (fun k => k.startsWith "production_") with
    | some k => .ok k
    | none =>
      let subject_key := match subject_id with
        | some i => if i = 0 then "general" else "subject_" ++ toString i
        | none => "general"
      if reg.mem.contains subject_key then .ok subject_key
      else if reg.disk.contains (subject_key ++ "_model_" ++ model_version ++ ".joblib") then
        .ok subject_key
      else .error "No trained model found. Please train a model first."

/-- The result dict of `predict_university_marks` / `batch_predict`: optional
fields stand for keys absent from the returned dict. -/
structure PredResult where
  success : Bool
  predicted_marks : Option ℚ := none
  confidence_score : Option ℚ := none
  input_features : List (String × ℚ) := []
  model_version : Option String := none
  model_used : Option String := none
  error : Option String := none
  prediction_method : Option String := none
  student_id : Option ℤ := none
  subject_id : Option ℤ := none
deriving DecidableEq, Repr

/-- `PredictionService.predict_university_marks` (lines 230–304): resolve a
model, build features, predict with the resolved regressor (`modelF` gives
each registered model's raw output on a feature vector), clip the raw output
to [0, 100], round, and package; every exception (in particular the
resolution failure) is caught and returned as `{success: false, error}`. -/
def predict_university_marks (reg : Registry) (modelF : String → List ℚ → ℚ)
    (student_data : StudentData) (subject_id : Option ℤ) : PredResult :=
  match resolve_model reg subject_id with
  | .error e => { success := false, error := some e }
  | .ok model_key =>
    let features := prepare_prediction_features student_data
    let prediction := modelF model_key features
    let confidence := calculate_confidence student_data
    let prediction := max 0 (min 100 prediction)
    { success := true
      predicted_marks := some (pyRound prediction 2)
      confidence_score := some (pyRound confidence 2)
      input_features := feature_columns.zip features
      model_version := some model_version
      model_used := some model_key }

/-- `PredictionService.batch_predict` (lines 476–504): predict for each
student independently, annotating each result with that student's ids;
`predict_university_marks` is total (it catches internally), so every item
is produced and a bad item never aborts the batch. -/
def batch_predict (reg : Registry) (modelF : String → List ℚ → ℚ)
    (students_data : List StudentData) (subject_id : Option ℤ) : List PredResult :=
  students_data.map (fun student_data =>
    let prediction := predict_university_marks reg modelF student_data subject_id
    { prediction with
        student_id := student_data.student_id
        subject_id := student_data.subject_id })

/-- The summary the `/predict/batch` route reports (app.py lines 285–291):
the number of per-item results with `success: true`. -/
def batch_successful_predictions (predictions : List PredResult) : ℕ :=
  (predictions.filter (fun p => p.success)).length

/-! ## Trainer: training-table construction and model selection

`PredictionService.prepare_training_data` (lines 47–119) groups raw mark
records by (student_id, subject_id) and builds one training row per group
that has a `university` mark and at least two internal exam types present
(key membership). `PredictionService.train_model` as defined at lines
121–228 gates on at least 10 rows and selects the candidate with the lowest
test MAE; the actual fitting and MAE values come from scikit-learn and are
abstracted as inputs to the selection fold. -/

/-- One raw mark record as consumed by `prepare_training_data`:
`subject_type` and `semester` are read with `.get` (defaults applied at
grouping time). -/
structure MarkRecord where
  student_id : ℤ
  subject_id : ℤ
  exam_type : String
  marks_obtained : ℚ
  max_marks : ℚ
  subject_type : Option String := none
  semester : Option ℚ := none
deriving DecidableEq, Repr

/-- One entry of the `student_subject_marks` grouping dict
(prediction_service.py lines 60–74). -/
structure MarksGroup where
  student_id : ℤ
  subject_id : ℤ
  subject_type : String
  semester : ℚ
  marks : List (String × ℚ)
deriving DecidableEq, Repr

/-- The grouping loop of `prepare_training_data` (lines 60–74): fold the
records into a dict keyed by (student_id, subject_id) — first occurrence
fixes `subject_type`/`semester`, every occurrence writes
`marks[exam_type] = percentage` (later records overwrite). -/
def group_marks (marks_data : List MarkRecord) : List MarksGroup :=
  marks_data.foldl (fun acc mark =>
    let percentage := mark.marks_obtained / mark.max_marks * 100
    if acc.any (fun g => g.student_id = mark.student_id ∧ g.subject_id = mark.subject_id) then
      acc.map (fun g =>
        if g.student_id = mark.student_id ∧ g.subject_id = mark.subject_id then
          { g with marks := dictSet g.marks mark.exam_type percentage }
        else g)
    else
      acc ++ [{ student_id := mark.student_id
                subject_id := mark.subject_id
                subject_type := mark.subject_type.getD "theory"
                semester := mark.semester.getD 1
                marks := [(mark.exam_type, percentage)] }]) []

/-- A row of the supervised training table (lines 96–106). -/
structure TrainingRow where
  student_id : ℤ
  subject_id : ℤ
  series_test_1_percentage : ℚ
  series_test_2_percentage : ℚ
  lab_internal_percentage : ℚ
  average_internal_percentage : ℚ
  subject_type_encoded : ℚ
  semester : ℚ
  university_percentage : ℚ
deriving DecidableEq, Repr

/-- The `internal_count` of `prepare_training_data` (lines 82–83): the number
of internal exam types whose KEY is present in the group's marks dict —
key membership, not value. -/
def internal_exam_count (g : MarksGroup) : ℕ :=
  (["series_test_1", "series_test_2", "lab_internal"].filter
    (fun e => dictMem g.marks e)).length

/-- The `avg_internal` of `prepare_training_data` (lines 87–89): the mean of
the strictly positive stored internal values (`marks.get(exam, 0)`),
0 when none is positive. -/
def group_avg_internal (g : MarksGroup) : ℚ :=
  let available_internals := (["series_test_1", "series_test_2", "lab_internal"].map
    (fun e => dictGet g.marks e 0)).filter (fun m => 0 < m)
  if available_internals.isEmpty then 0 else npMean available_internals

/-- The row construction of `prepare_training_data` (lines 77–107): a group
yields a row only if its `marks` dict has the `university` key and at least
two of the three internal exam-type keys; a key that is entirely absent is
imputed with `avg_internal` (`marks.get(exam, avg_internal)`), while a
present key keeps its stored value (even 0); the average feature is the mean
of the three values after imputation. -/
def training_row_of_group (g : MarksGroup) : Option TrainingRow :=
  if dictMem g.marks "university" then
    if 2 ≤ internal_exam_count g then
      some { student_id := g.student_id
             subject_id := g.subject_id
             series_test_1_percentage := dictGet g.marks "series_test_1" (group_avg_internal g)
             series_test_2_percentage := dictGet g.marks "series_test_2" (group_avg_internal g)
             lab_internal_percentage := dictGet g.marks "lab_internal" (group_avg_internal g)
             average_internal_percentage := npMean
               [dictGet g.marks "series_test_1" (group_avg_internal g),
                dictGet g.marks "series_test_2" (group_avg_internal g),
                dictGet g.marks "lab_internal" (group_avg_internal g)]
             subject_type_encoded := if g.subject_type = "lab" then 1 else 0
             semester := g.semester
             university_percentage := dictGet g.marks "university" 0 }
    else none
  else none

/-- The training table `prepare_training_data` builds from a corpus. -/
def training_rows (marks_data : List MarkRecord) : List TrainingRow :=
  (group_marks marks_data).filterMap training_row_of_group

/-- The outcome dict of the trainer defined at lines 121–228 (its `success`
and `error` keys). -/
structure TrainOutcome where
  success : Bool
  error : Option String := none
deriving DecidableEq, Repr

/-- The error-handling shell of the trainer at lines 121–228: the
`ValueError` raised by `prepare_training_data` on an empty table (line 110)
and the explicit `< 10` check (lines 136–137) are both caught by the
`except` at lines 222–228 and returned as `{success: false, error}`;
`proceed` abstracts the scikit-learn fitting that runs past the gate. -/
def train_model_v1 (marks_data : List MarkRecord) (proceed : TrainOutcome) : TrainOutcome :=
  let rows := training_rows marks_data
  if rows.length = 0 then
    { success := false
      error := some "No valid training data found. Need students with university marks and internal assessments." }
  else if rows.length < 10 then
    { success := false
      error := some ("Insufficient training data: " ++ toString rows.length
        ++ " records. Need at least 10 records.") }
  else proceed

/-- The candidate dict `models_to_try` of lines 145–161, in insertion order. -/
def models_to_try : List String := ["random_forest", "xgboost"]

/-- Per-candidate held-out metrics (lines 178–183). -/
structure Metrics where
  mae : ℚ
  mse : ℚ
  rmse : ℚ
  r2 : ℚ
deriving DecidableEq, Repr

/-- The best-model selection loop of lines 163–189: `best_score` starts at
`float('inf')` and a candidate replaces the incumbent only when its MAE is
strictly smaller, so the first candidate in iteration order wins ties. -/
def select_best_model (model_results : List (String × Metrics)) : Option (String × Metrics) :=
  model_results.foldl (fun best r =>
    match best with
    | none => some r
    | some b => if r.2.mae < b.2.mae then some r else best) none

/-- The success dict of lines 206–217, restricted to the fields the claims
are about: the winner's name and metrics plus `all_models_performance`. -/
structure TrainSuccess where
  best_model : String
  model_performance : Metrics
  all_models_performance : List (String × Metrics)
deriving DecidableEq, Repr

/-- Lines 163–217 as a function of the evaluated per-candidate metrics:
select the best by MAE and package the results, `all_models_performance`
carrying every candidate's metrics. -/
def build_training_results (model_results : List (String × Metrics)) : Option TrainSuccess :=
  (select_best_model model_results).map (fun best =>
    { best_model := best.1
      model_performance := best.2
      all_models_performance := model_results })

/-! ## Python method resolution on the class body

`PredictionService` defines `train_model` twice: at line 121 (signature
`(marks_data, subject_id)`, the behaviour the spec describes) and at line 560
(signature `(X, y)`, under "Additional methods for comprehensive testing
support"). In Python, the later definition in a class body overwrites the
earlier one, so `PredictionService.train_model` dispatches to the line-560
definition. We embed the class body as the ordered list of its method
definitions (name, starting line). -/

/-- The method definitions of `class PredictionService`
(prediction_service.py) in source order, with their starting lines. -/
def prediction_service_class_body : List (String × ℕ) :=
  [("__init__", 26), ("prepare_training_data", 47), ("train_model", 121),
   ("predict_university_marks", 230), ("_prepare_prediction_features", 306),
   ("_calculate_confidence", 354), ("_load_production_models", 387),
   ("_load_models", 444), ("get_model_info", 462), ("batch_predict", 476),
   ("preprocess_data", 508), ("engineer_features", 532), ("train_model", 560),
   ("_calculate_accuracy_within_threshold", 593), ("train_subject_model", 598),
   ("save_model", 626), ("load_model", 644), ("cross_validate_model", 657),
   ("get_feature_importance", 687), ("detect_outliers", 706),
   ("predict_with_confidence", 733)]

/-- Python class-body semantics: executing the `def` statements in order
rebinds the name each time, so attribute lookup finds the last definition. -/
def python_class_attr (body : List (String × ℕ)) (name : String) : Option ℕ :=
  body.foldl (fun acc d => if d.1 = name then some d.2 else acc) none

/-! ## Error handler: fallback prediction tiers

`get_fallback_prediction` (utils/error_handler.py lines 112–155) builds the
degraded result from the `student_data` keyword argument (a dict read with
`.get(key, 0)` on the `*_marks` keys; dict truthiness is non-emptiness). The
`except` branch's constant result (lines 147–155) is reachable only through
a runtime exception inside the pure computation, so we record it as the
constant it returns. -/

/-- The degraded result dict of `get_fallback_prediction`, restricted to the
fields the claims are about. -/
structure FallbackResult where
  predicted_marks : ℚ
  confidence_score : ℚ
  prediction_method : String
  warning : String
deriving DecidableEq, Repr

/-- The `available_marks` list of `get_fallback_prediction`
(error_handler.py lines 127–132): the strictly positive `*_marks` values of
the `student_data` dict. -/
def fallback_available_marks (student_data : List (String × ℚ)) : List ℚ :=
  [dictGet student_data "series_test_1_marks" 0,
   dictGet student_data "series_test_2_marks" 0,
   dictGet student_data "lab_internal_marks" 0].filter (fun m => 0 < m)

/-- `get_fallback_prediction` (error_handler.py lines 112–146): the default
is the conservative 65.0 at confidence 0.3; when `student_data` is a
non-empty dict with at least one strictly positive `*_marks` value, the
average of the positive values is rescaled from a 0–50 basis (`/50*100`)
and clamped to [35, 85], at confidence 0.5; the result is rounded to one
decimal and tagged `fallback` with a warning. -/
def get_fallback_prediction (student_data : List (String × ℚ)) : FallbackResult :=
  if ¬ student_data.isEmpty ∧ ¬ (fallback_available_marks student_data).isEmpty then
    { predicted_marks := pyRound (min (max ((fallback_available_marks student_data).sum /
        (fallback_available_marks student_data).length / 50 * 100) 35) 85) 1
      confidence_score := 1/2
      prediction_method := "fallback"
      warning := "This is a fallback prediction due to model unavailability" }
  else
    { predicted_marks := pyRound 65 1
      confidence_score := 3/10
      prediction_method := "fallback"
      warning := "This is a fallback prediction due to model unavailability" }

/-- The constant returned by the `except` branch of `get_fallback_prediction`
(error_handler.py lines 149–155). -/
def emergency_fallback : FallbackResult :=
  { predicted_marks := 60
    confidence_score := 2/10
    prediction_method := "emergency_fallback"
    warning := "Emergency fallback prediction - please try again later" }

/-! ## Database service: prediction persistence

`DatabaseService.save_prediction` (database_service.py lines 245–301) and
`DatabaseService.toggle_prediction_visibility` (lines 303–336). The
`ml_predictions` table is modelled as a list of rows; the SQL `UPDATE`
statements act on every row matching their `WHERE` clause; the serial id of
a fresh insert is supplied as `fresh_id`. -/

/-- One row of the `ml_predictions` table, with the columns the two queries
touch. -/
structure PredRow where
  id : ℤ
  student_id : ℤ
  subject_id : ℤ
  predicted_marks : ℚ
  confidence_score : ℚ
  input_features : String
  model_version : String
  is_visible_to_student : Bool
  created_at : ℕ
deriving DecidableEq, Repr

/-- `DatabaseService.save_prediction` (lines 245–301): if a row for
(student_id, subject_id) exists, update its `predicted_marks`,
`confidence_score`, `input_features`, `model_version` and `created_at`
columns only; otherwise insert a new row with
`is_visible_to_student = False`. Returns the new table and the returned id. -/
def save_prediction (db : List PredRow) (fresh_id : ℤ) (now : ℕ)
    (student_id subject_id : ℤ) (predicted_marks confidence_score : ℚ)
    (input_features model_version : String) : List PredRow × Option ℤ :=
  let existing := db.filter (fun r => r.student_id = student_id ∧ r.subject_id = subject_id)
  if existing.isEmpty then
    (db ++ [{ id := fresh_id
              student_id := student_id
              subject_id := subject_id
              predicted_marks := predicted_marks
              confidence_score := confidence_score
              input_features := input_features
              model_version := model_version
              is_visible_to_student := false
              created_at := now }], some fresh_id)
  else
    (db.map (fun r =>
      if r.student_id = student_id ∧ r.subject_id = subject_id then
        { r with predicted_marks := predicted_marks
                 confidence_score := confidence_score
                 input_features := input_features
                 model_version := model_version
                 created_at := now }
      else r), (existing.head?).map (fun r => r.id))

/-- The authorization check of `toggle_prediction_visibility` (lines
315–327): with a truthy `faculty_id`, an assignment row must exist in
`faculty_subjects` for the current year. -/
def faculty_authorized (faculty_subjects : List (ℤ × ℤ × ℤ)) (current_year : ℤ)
    (subject_id : ℤ) (faculty_id : Option ℤ) : Bool :=
  match faculty_id with
  | some fid =>
    if fid = 0 then true
    else faculty_subjects.any (fun a => a.1 = fid ∧ a.2.1 = subject_id ∧ a.2.2 = current_year)
  | none => true

/-- `DatabaseService.toggle_prediction_visibility` (lines 303–336): when a
truthy `faculty_id` is given, require an assignment row in
`faculty_subjects` for the current year (else raise); then set
`is_visible_to_student` on every prediction row of the subject, returning
the updated table and the update count. -/
def toggle_prediction_visibility (db : List PredRow)
    (faculty_subjects : List (ℤ × ℤ × ℤ)) (current_year : ℤ)
    (subject_id : ℤ) (is_visible : Bool) (faculty_id : Option ℤ) :
    Except String (List PredRow × ℕ) :=
  if ¬ faculty_authorized faculty_subjects current_year subject_id faculty_id then
    .error "Faculty does not have access to this subject"
  else
    .ok (db.map (fun r =>
          if r.subject_id = subject_id then { r with is_visible_to_student := is_visible } else r),
         (db.filter (fun r => r.subject_id = subject_id)).length)

/-! ## Helper lemmas -/

theorem floor_le_roundHalfEven (q : ℚ) : ⌊q⌋ ≤ roundHalfEven q := by
  unfold roundHalfEven
  split_ifs
  · exact le_refl _
  · exact Int.le.intro 1 rfl
  · exact le_refl _
  · exact Int.le.intro 1 rfl

theorem roundHalfEven_le_ceil (q : ℚ) : roundHalfEven q ≤ ⌈q⌉ := by
  unfold roundHalfEven
  by_cases h1 : q - ⌊q⌋ < 1/2
  · simp only [h1, if_true]
    exact Int.floor_le_ceil q
  · have hfrac : (⌊q⌋ : ℚ) < q := by
      have := le_of_not_lt h1
      linarith
    have hceil : ⌊q⌋ + 1 ≤ ⌈q⌉ := Int.add_one_le_ceil_iff.mpr hfrac
    simp only [h1, if_false]
    split_ifs
    · exact hceil
    · exact le_trans (Int.le.intro 1 rfl) hceil
    · exact hceil

theorem roundHalfEven_bounds {a b : ℤ} {q : ℚ} (ha : (a : ℚ) ≤ q) (hb : q ≤ (b : ℚ)) :
    a ≤ roundHalfEven q ∧ roundHalfEven q ≤ b :=
  ⟨le_trans (Int.le_floor.mpr ha) (floor_le_roundHalfEven q),
   le_trans (roundHalfEven_le_ceil q) (Int.ceil_le.mpr hb)⟩

theorem pyRound_bounds {a b : ℤ} {q : ℚ} (n : ℕ) (ha : (a : ℚ) ≤ q) (hb : q ≤ (b : ℚ)) :
    (a : ℚ) ≤ pyRound q n ∧ pyRound q n ≤ (b : ℚ) := by
  have hpow : (0 : ℚ) < ((10 ^ n : ℕ) : ℚ) := by positivity
  have hcast : ∀ z : ℤ, ((z * (10 ^ n : ℕ) : ℤ) : ℚ) = (z : ℚ) * ((10 ^ n : ℕ) : ℚ) := by
    intro z
    push_cast
    ring
  have ha' : ((a * (10 ^ n : ℕ) : ℤ) : ℚ) ≤ q * ((10 ^ n : ℕ) : ℚ) := by
    rw [hcast]
    exact mul_le_mul_of_nonneg_right ha hpow.le
  have hb' : q * ((10 ^ n : ℕ) : ℚ) ≤ ((b * (10 ^ n : ℕ) : ℤ) : ℚ) := by
    rw [hcast]
    exact mul_le_mul_of_nonneg_right hb hpow.le
  obtain ⟨h1, h2⟩ := roundHalfEven_bounds ha' hb'
  have h1' : (a : ℚ) * ((10 ^ n : ℕ) : ℚ) ≤ (roundHalfEven (q * ((10 ^ n : ℕ) : ℚ)) : ℚ) := by
    rw [← hcast]
    exact_mod_cast h1
  have h2' : (roundHalfEven (q * ((10 ^ n : ℕ) : ℚ)) : ℚ) ≤ (b : ℚ) * ((10 ^ n : ℕ) : ℚ) := by
    rw [← hcast]
    exact_mod_cast h2
  unfold pyRound
  constructor
  · rw [le_div_iff₀ hpow]
    exact h1'
  · rw [div_le_iff₀ hpow]
    exact h2'

/-! ## Claims -/

/-- Claim C1. The specified trainer (lines 121–228) does return
`{success: false}` with an insufficient/invalid-training-data message on
every corpus with fewer than 10 valid training rows — but the class defines
a second `train_model` at line 560, and Python's class-body semantics bind
`PredictionService.train_model` to that later definition, so the call site
does not reach the lines-121 implementation at all. -/
theorem C1_train_model_gate_and_shadowing :
    python_class_attr prediction_service_class_body "train_model" = some 560 ∧
    some 560 ≠ some 121 ∧
    ∀ (marks_data : List MarkRecord) (proceed : TrainOutcome),
      (training_rows marks_data).length < 10 →
        (train_model_v1 marks_data proceed).success = false ∧
        ((train_model_v1 marks_data proceed).error =
            some "No valid training data found. Need students with university marks and internal assessments." ∨
          (train_model_v1 marks_data proceed).error =
            some ("Insufficient training data: " ++ toString (training_rows marks_data).length
              ++ " records. Need at least 10 records.")) := by
  refine ⟨by decide, by decide, ?_⟩
  intro marks_data proceed h
  by_cases h0 : (training_rows marks_data).length = 0
  · exact ⟨by simp [train_model_v1, h0], Or.inl (by simp [train_model_v1, h0])⟩
  · exact ⟨by simp [train_model_v1, h0, h], Or.inr (by simp [train_model_v1, h0, h])⟩

/-- Witness for C1 at the empty corpus. -/
theorem C1_witness :
    (training_rows ([] : List MarkRecord)).length < 10 ∧
    (train_model_v1 [] { success := true }).success = false :=
  ⟨by decide,
   (C1_train_model_gate_and_shadowing.2.2 [] { success := true } (by decide)).1⟩

/-- Claim C2 as stated is false: with only a `general` model registered,
resolving for `subject_id = 1` does not fall back to the general model — it
fails with the no-trained-model error. -/
theorem C2_counterexample :
    resolve_model { mem := ["general"], disk := [] } (some 1) =
      Except.error "No trained model found. Please train a model first." := by
  rfl

/-- Claim C2 amended: first match wins among (1) `production_best`, (2) the
first other `production_`-prefixed key, (3) the key determined by
`subject_id` alone — `subject_{id}` when a truthy `subject_id` is given,
else `general`, from memory or disk — with no fall-through from the
subject-specific key to the general one; when that single key is absent the
call fails with the no-trained-model error. -/
theorem C2_resolution_priority (reg : Registry) (subject_id : Option ℤ) :
    ("production_best" ∈ reg.mem →
      resolve_model reg subject_id = Except.ok "production_best") ∧
    ("production_best" ∉ reg.mem →
      ∀ k, reg.mem.find? (fun s => s.startsWith "production_") = some k →
        resolve_model reg subject_id = Except.ok k) ∧
    ("production_best" ∉ reg.mem →
      reg.mem.find? (fun s => s.startsWith "production_") = none →
      ∀ subject_key,
        subject_key = (match subject_id with
          | some i => if i = 0 then "general" else "subject_" ++ toString i
          | none => "general") →
        (subject_key ∈ reg.mem →
          resolve_model reg subject_id = Except.ok subject_key) ∧
        (subject_key ∉ reg.mem →
          (subject_key ++ "_model_" ++ model_version ++ ".joblib") ∈ reg.disk →
          resolve_model reg subject_id = Except.ok subject_key) ∧
        (subject_key ∉ reg.mem →
          (subject_key ++ "_model_" ++ model_version ++ ".joblib") ∉ reg.disk →
          resolve_model reg subject_id =
            Except.error "No trained model found. Please train a model first.")) := by
  refine ⟨fun h1 => ?_, fun h1 k hk => ?_, fun h1 h2 subject_key hsk => ?_⟩
  · simp [resolve_model, h1]
  · simp [resolve_model, h1, hk]
  · refine ⟨fun h3 => ?_, fun h3 h4 => ?_, fun h3 h4 => ?_⟩
    · simp [resolve_model, h1, h2, ← hsk, h3]
    · simp [resolve_model, h1, h2, ← hsk, h3, h4]
    · simp [resolve_model, h1, h2, ← hsk, h3, h4]

/-- Witness for C2 at the claim's concrete scenario: with both a
production-best and a `subject_1` model registered, subject 1 resolves to
the production-best key. -/
theorem C2_witness :
    resolve_model { mem := ["production_best", "subject_1"], disk := [] } (some 1) =
      Except.ok "production_best" :=
  (C2_resolution_priority { mem := ["production_best", "subject_1"], disk := [] }
    (some 1)).1 (by decide)

theorem pyRound_intCast (z : ℤ) (n : ℕ) : pyRound (z : ℚ) n = z := by
  have hcast : ((z : ℚ) * ((10 ^ n : ℕ) : ℚ)) = ((z * (10 ^ n : ℕ) : ℤ) : ℚ) := by
    push_cast
    ring
  have hne : (((10 ^ n : ℕ) : ℚ)) ≠ 0 := by positivity
  unfold pyRound roundHalfEven
  rw [hcast, Int.floor_intCast]
  simp only [sub_self]
  norm_num

/-- Claim C3 as stated is false: a predict call that cannot resolve a model
returns a plain `{success: false, error}` dict — `predict_university_marks`
catches the resolution failure itself, so the result carries no
`prediction_method` tag, no 0.5 confidence and no fallback estimate, even
with internal marks present. -/
theorem C3_counterexample :
    predict_university_marks { mem := [], disk := [] } (fun _ _ => 0)
      { marks := [("series_test_1", 40), ("series_test_2", 45)] } none =
      { success := false,
        error := some "No trained model found. Please train a model first." } := by
  rfl

/-- Claim C3 amended: the degraded tiers live in `get_fallback_prediction`
(invoked by the prediction error wrapper, not by a failed model
resolution): with at least one positive `*_marks` value it returns the
average of the positive marks scaled from a 0–50 basis to 0–100, clamped to
[35, 85] and rounded to one decimal, at confidence 0.5; with none, the
constant 65.0 at confidence 0.3; its exception branch returns the emergency
constant 60.0 at confidence 0.2 tagged `emergency_fallback`; every degraded
result carries its tier tag and a warning. -/
theorem C3_fallback_tiers (student_data : List (String × ℚ)) :
    ((get_fallback_prediction student_data).prediction_method = "fallback" ∧
      (get_fallback_prediction student_data).warning =
        "This is a fallback prediction due to model unavailability") ∧
    (¬ student_data.isEmpty → ¬ (fallback_available_marks student_data).isEmpty →
      (get_fallback_prediction student_data).predicted_marks =
        pyRound (min (max ((fallback_available_marks student_data).sum /
          (fallback_available_marks student_data).length / 50 * 100) 35) 85) 1 ∧
      35 ≤ (get_fallback_prediction student_data).predicted_marks ∧
      (get_fallback_prediction student_data).predicted_marks ≤ 85 ∧
      (get_fallback_prediction student_data).confidence_score = 1/2) ∧
    (student_data.isEmpty ∨ (fallback_available_marks student_data).isEmpty →
      (get_fallback_prediction student_data).predicted_marks = 65 ∧
      (get_fallback_prediction student_data).confidence_score = 3/10) ∧
    (emergency_fallback.predicted_marks = 60 ∧
      emergency_fallback.confidence_score = 2/10 ∧
      emergency_fallback.prediction_method = "emergency_fallback" ∧
      emergency_fallback.warning =
        "Emergency fallback prediction - please try again later") := by
  have hbounds : (35 : ℚ) ≤
      min (max ((fallback_available_marks student_data).sum /
        (fallback_available_marks student_data).length / 50 * 100) 35) 85 ∧
      min (max ((fallback_available_marks student_data).sum /
        (fallback_available_marks student_data).length / 50 * 100) 35) 85 ≤ 85 := by
    constructor
    · exact le_min (le_max_right _ _) (by norm_num)
    · exact min_le_right _ _
  have hround := pyRound_bounds (a := 35) (b := 85) 1 (by exact_mod_cast hbounds.1)
    (by exact_mod_cast hbounds.2)
  refine ⟨?_, fun h1 h2 => ?_, fun h => ?_, ⟨rfl, rfl, rfl, rfl⟩⟩
  · unfold get_fallback_prediction
    split_ifs <;> exact ⟨rfl, rfl⟩
  · have hgf : get_fallback_prediction student_data =
        { predicted_marks := pyRound (min (max ((fallback_available_marks student_data).sum /
            (fallback_available_marks student_data).length / 50 * 100) 35) 85) 1
          confidence_score := 1/2
          prediction_method := "fallback"
          warning := "This is a fallback prediction due to model unavailability" } := by
      unfold get_fallback_prediction
      rw [if_pos ⟨h1, h2⟩]
    rw [hgf]
    exact ⟨rfl, by exact_mod_cast hround.1, by exact_mod_cast hround.2, rfl⟩
  · have hcond : ¬ (¬ student_data.isEmpty ∧
        ¬ (fallback_available_marks student_data).isEmpty) := by
      rcases h with h | h
      · exact fun hc => hc.1 h
      · exact fun hc => hc.2 h
    have hgf : get_fallback_prediction student_data =
        { predicted_marks := pyRound 65 1
          confidence_score := 3/10
          prediction_method := "fallback"
          warning := "This is a fallback prediction due to model unavailability" } := by
      unfold get_fallback_prediction
      rw [if_neg hcond]
    rw [hgf]
    exact ⟨pyRound_intCast 65 1, rfl⟩

/-- Witness for C3 at the spec's concrete scenario: marks 40 and 45 give the
clamped fallback 85 at confidence 0.5. -/
theorem C3_witness :
    (get_fallback_prediction
      [("series_test_1_marks", 40), ("series_test_2_marks", 45)]).predicted_marks = 85 ∧
    (get_fallback_prediction
      [("series_test_1_marks", 40), ("series_test_2_marks", 45)]).confidence_score = 1/2 := by
  have hav : fallback_available_marks
      [("series_test_1_marks", 40), ("series_test_2_marks", 45)] = [40, 45] := by
    decide
  have h := (C3_fallback_tiers
    [("series_test_1_marks", 40), ("series_test_2_marks", 45)]).2.1
    (by norm_num) (by rw [hav]; norm_num)
  refine ⟨h.1.trans ?_, h.2.2.2⟩
  rw [hav]
  have h85 : ((([(40 : ℚ), 45].sum / ([(40 : ℚ), 45].length : ℚ) / 50 * 100) ⊔ 35) ⊓ 85) =
      ((85 : ℤ) : ℚ) := by
    norm_num
  rw [h85, pyRound_intCast]
  norm_num

theorem npMean_pos {l : List ℚ} (hne : l ≠ []) (hpos : ∀ x ∈ l, 0 < x) : 0 < npMean l := by
  have hsum : 0 < l.sum := List.sum_pos l hpos hne
  have hlen : 0 < (l.length : ℚ) := by
    exact_mod_cast List.length_pos.mpr hne
  exact div_pos hsum hlen

/-- The spec's imputation value for the feature builder: the mean of the
present (strictly positive) internal marks of a student record. Stated from
the spec's words, to be compared with `prepare_prediction_features`. -/
def spec_present_internal_mean (sd : StudentData) : ℚ :=
  npMean ([dictGet sd.marks "series_test_1" 0, dictGet sd.marks "series_test_2" 0,
    dictGet sd.marks "lab_internal" 0].filter (fun m => 0 < m))

/-- The spec's description of one filled internal-mark feature: a missing
(absent or zero) mark is replaced by the mean of the present ones, a present
mark is kept. Stated from the spec's words. -/
def spec_filled_internal (sd : StudentData) (exam : String) : ℚ :=
  if dictGet sd.marks exam 0 = 0 then spec_present_internal_mean sd
  else dictGet sd.marks exam 0

/-- Claim C4: for every student record with nonnegative internal marks of
which at least one is present (absent or zero counting as missing), the
feature builder replaces each missing internal with the mean of the present
ones, and the average-internal feature is the mean of the three values after
filling; subject-type encoding, semester and attendance follow. -/
theorem C4_feature_fill (sd : StudentData)
    (hnn : ∀ e ∈ ["series_test_1", "series_test_2", "lab_internal"],
      0 ≤ dictGet sd.marks e 0)
    (hpos : ∃ e ∈ ["series_test_1", "series_test_2", "lab_internal"],
      0 < dictGet sd.marks e 0) :
    prepare_prediction_features sd =
      [spec_filled_internal sd "series_test_1",
       spec_filled_internal sd "series_test_2",
       spec_filled_internal sd "lab_internal",
       npMean [spec_filled_internal sd "series_test_1",
         spec_filled_internal sd "series_test_2",
         spec_filled_internal sd "lab_internal"],
       if sd.subject_type = some "lab" then 1 else 0,
       sd.semester.getD 1,
       sd.attendance_percentage.getD 80] := by
  have hnn1 := hnn "series_test_1" (by simp)
  have hnn2 := hnn "series_test_2" (by simp)
  have hnn3 := hnn "lab_internal" (by simp)
  have hne : ([dictGet sd.marks "series_test_1" 0, dictGet sd.marks "series_test_2" 0,
      dictGet sd.marks "lab_internal" 0].filter (fun m => 0 < m)) ≠ [] := by
    obtain ⟨e, he, hp⟩ := hpos
    simp only [List.mem_cons, List.not_mem_nil, or_false] at he
    rcases he with he | he | he
    · subst he
      refine List.ne_nil_of_mem (a := dictGet sd.marks "series_test_1" 0)
        (List.mem_filter.mpr ⟨by simp, by simpa using hp⟩)
    · subst he
      refine List.ne_nil_of_mem (a := dictGet sd.marks "series_test_2" 0)
        (List.mem_filter.mpr ⟨by simp, by simpa using hp⟩)
    · subst he
      refine List.ne_nil_of_mem (a := dictGet sd.marks "lab_internal" 0)
        (List.mem_filter.mpr ⟨by simp, by simpa using hp⟩)
  have havg : 0 < npMean ([dictGet sd.marks "series_test_1" 0,
      dictGet sd.marks "series_test_2" 0,
      dictGet sd.marks "lab_internal" 0].filter (fun m => 0 < m)) :=
    npMean_pos hne (fun x hx => by simpa using (List.mem_filter.mp hx).2)
  have hempty : ([dictGet sd.marks "series_test_1" 0, dictGet sd.marks "series_test_2" 0,
      dictGet sd.marks "lab_internal" 0].filter (fun m => 0 < m)).isEmpty = false := by
    simpa [List.isEmpty_iff] using hne
  have fill_eq : ∀ g avg : ℚ, 0 < avg →
      (if g = 0 ∧ 0 < avg then avg else g) = (if g = 0 then avg else g) := by
    intro g avg havg'
    by_cases h : g = 0 <;> simp [h, havg']
  simp only [prepare_prediction_features, spec_filled_internal, spec_present_internal_mean,
    hempty, Bool.false_eq_true, if_false]
  rw [fill_eq _ _ havg, fill_eq _ _ havg, fill_eq _ _ havg]

/-- Witness for C4 at the claim's concrete record: `{series_test_1: 80}`
alone yields the fully filled vector. -/
theorem C4_witness :
    prepare_prediction_features { marks := [("series_test_1", 80)] } =
      [80, 80, 80, 80, 0, 1, 80] := by
  have h := C4_feature_fill { marks := [("series_test_1", 80)] }
    (by intro e he; fin_cases he <;> decide)
    (by exact ⟨"series_test_1", by simp, by decide⟩)
  rw [h]
  have hg1 : dictGet ([("series_test_1", (80:ℚ))]) "series_test_1" 0 = 80 := by decide
  have hg2 : dictGet ([("series_test_1", (80:ℚ))]) "series_test_2" 0 = 0 := by decide
  have hg3 : dictGet ([("series_test_1", (80:ℚ))]) "lab_internal" 0 = 0 := by decide
  have hmean : spec_present_internal_mean { marks := [("series_test_1", 80)] } = 80 := by
    unfold spec_present_internal_mean
    rw [show ([dictGet ([("series_test_1", (80:ℚ))]) "series_test_1" 0,
        dictGet ([("series_test_1", (80:ℚ))]) "series_test_2" 0,
        dictGet ([("series_test_1", (80:ℚ))]) "lab_internal" 0].filter (fun m => 0 < m))
        = [80] from by decide]
    norm_num [npMean]
  simp only [spec_filled_internal, hg1, hg2, hg3, hmean]
  norm_num [npMean]
  simp

/-- Claim C5: on every successful prediction, `predicted_marks` is the raw
model output clipped to [0, 100] (then rounded to two decimals): raw above
100 gives exactly 100, raw below 0 gives exactly 0, in-range raw is returned
unchanged up to rounding, and the result always lies in [0, 100]. -/
theorem C5_prediction_clipped (reg : Registry) (modelF : String → List ℚ → ℚ)
    (sd : StudentData) (subject_id : Option ℤ) (model_key : String)
    (hres : resolve_model reg subject_id = Except.ok model_key) :
    (predict_university_marks reg modelF sd subject_id).success = true ∧
    (predict_university_marks reg modelF sd subject_id).predicted_marks =
      some (pyRound (max 0 (min 100 (modelF model_key (prepare_prediction_features sd)))) 2) ∧
    (100 < modelF model_key (prepare_prediction_features sd) →
      (predict_university_marks reg modelF sd subject_id).predicted_marks = some 100) ∧
    (modelF model_key (prepare_prediction_features sd) < 0 →
      (predict_university_marks reg modelF sd subject_id).predicted_marks = some 0) ∧
    (0 ≤ modelF model_key (prepare_prediction_features sd) →
      modelF model_key (prepare_prediction_features sd) ≤ 100 →
      (predict_university_marks reg modelF sd subject_id).predicted_marks =
        some (pyRound (modelF model_key (prepare_prediction_features sd)) 2)) ∧
    (∀ pm, (predict_university_marks reg modelF sd subject_id).predicted_marks = some pm →
      0 ≤ pm ∧ pm ≤ 100) := by
  have hpred : predict_university_marks reg modelF sd subject_id =
      { success := true
        predicted_marks := some (pyRound
          (max 0 (min 100 (modelF model_key (prepare_prediction_features sd)))) 2)
        confidence_score := some (pyRound (calculate_confidence sd) 2)
        input_features := feature_columns.zip (prepare_prediction_features sd)
        model_version := some model_version
        model_used := some model_key } := by
    unfold predict_university_marks
    rw [hres]
  rw [hpred]
  refine ⟨rfl, rfl, fun h => ?_, fun h => ?_, fun h0 h100 => ?_, fun pm hpm => ?_⟩
  · rw [min_eq_left h.le, show max (0:ℚ) 100 = ((100:ℤ):ℚ) by norm_num, pyRound_intCast]
    try simp
  · rw [min_eq_right (by linarith), max_eq_left h.le,
      show (0:ℚ) = ((0:ℤ):ℚ) by norm_num, pyRound_intCast]
    try simp
  · rw [min_eq_right h100, max_eq_right h0]
  · have hlo : (0 : ℚ) ≤ max 0 (min 100 (modelF model_key (prepare_prediction_features sd))) :=
      le_max_left _ _
    have hhi : max 0 (min 100 (modelF model_key (prepare_prediction_features sd))) ≤ 100 :=
      max_le (by norm_num) (min_le_left _ _)
    have hb := pyRound_bounds (a := 0) (b := 100) 2 (by exact_mod_cast hlo)
      (by exact_mod_cast hhi)
    obtain rfl : pm = pyRound
        (max 0 (min 100 (modelF model_key (prepare_prediction_features sd)))) 2 :=
      (Option.some_injective _ hpm).symm
    exact ⟨by exact_mod_cast hb.1, by exact_mod_cast hb.2⟩

/-- Witness for C5: a registered general model whose raw output is 150 is
clipped to exactly 100. -/
theorem C5_witness :
    (predict_university_marks { mem := ["general"], disk := [] }
      (fun _ _ => 150) {} none).predicted_marks = some 100 :=
  (C5_prediction_clipped { mem := ["general"], disk := [] } (fun _ _ => 150) {} none
    "general" rfl).2.2.1 (by norm_num)

/-- Claim C6: the confidence score is `0.5 + (present marks / 3) * 0.3`, plus
— when at least two internal marks are present — `max(0, (100 − variance) /
100) * 0.2`, clipped to [0, 1]; it always lies in [0, 1], and a record with
all three internal marks present scores at least as high as one with a
single present mark. -/
theorem C6_confidence (sd : StudentData) :
    (0 ≤ calculate_confidence sd ∧ calculate_confidence sd ≤ 1) ∧
    calculate_confidence sd = max 0 (min 1 (1/2 +
      ((present_internal_marks sd).length : ℚ) / 3 * (3/10) +
      (if 2 ≤ (present_internal_marks sd).length then
        max 0 ((100 - npVar (present_internal_marks sd)) / 100) * (2/10) else 0))) ∧
    (∀ sd2 : StudentData, (present_internal_marks sd).length = 3 →
      (present_internal_marks sd2).length = 1 →
      calculate_confidence sd2 ≤ calculate_confidence sd) := by
  have hform : ∀ s : StudentData, calculate_confidence s = max 0 (min 1 (1/2 +
      ((present_internal_marks s).length : ℚ) / 3 * (3/10) +
      (if 2 ≤ (present_internal_marks s).length then
        max 0 ((100 - npVar (present_internal_marks s)) / 100) * (2/10) else 0))) := by
    intro s
    unfold calculate_confidence
    have hlen : ((["series_test_1", "series_test_2", "lab_internal"].filter
        (fun e => 0 < dictGet s.marks e 0)).length : ℚ) =
        ((present_internal_marks s).length : ℚ) := by
      simp [present_internal_marks]
    rw [hlen]
    split_ifs
    · rfl
    · rw [add_zero]
  refine ⟨?_, hform sd, fun sd2 h3 h1 => ?_⟩
  · rw [hform sd]
    exact ⟨le_max_left _ _, max_le (by norm_num) (min_le_left _ _)⟩
  · have hsd : (4 : ℚ)/5 ≤ calculate_confidence sd := by
      rw [hform sd, h3, if_pos (by norm_num : (2:ℕ) ≤ 3)]
      have hb : 0 ≤ max 0 ((100 - npVar (present_internal_marks sd)) / 100) * (2/10) := by
        positivity
      have heq : (1:ℚ)/2 + ((3:ℕ):ℚ)/3 * (3/10) +
          max 0 ((100 - npVar (present_internal_marks sd)) / 100) * (2/10) =
          4/5 + max 0 ((100 - npVar (present_internal_marks sd)) / 100) * (2/10) := by
        push_cast
        ring
      rw [heq]
      exact le_trans (le_min (by norm_num) (by linarith)) (le_max_right _ _)
    have hsd2 : calculate_confidence sd2 ≤ (3 : ℚ)/5 := by
      rw [hform sd2, h1, if_neg (by norm_num : ¬ (2:ℕ) ≤ 1), add_zero]
      have heq : (1:ℚ)/2 + ((1:ℕ):ℚ)/3 * (3/10) = 3/5 := by
        push_cast
        ring
      rw [heq]
      exact max_le (by norm_num) (min_le_right _ _)
    linarith

/-- Witness for C6: a record with three consistent marks has confidence at
least that of a record with a single mark. -/
theorem C6_witness :
    (present_internal_marks
      { marks := [("series_test_1", 40), ("series_test_2", 45), ("lab_internal", 42)] }).length
        = 3 ∧
    (present_internal_marks { marks := [("series_test_1", 40)] }).length = 1 ∧
    calculate_confidence { marks := [("series_test_1", 40)] } ≤
      calculate_confidence
        { marks := [("series_test_1", 40), ("series_test_2", 45), ("lab_internal", 42)] } :=
  ⟨by decide, by decide,
   (C6_confidence _).2.2 _ (by decide) (by decide)⟩

theorem predict_failure_has_error (reg : Registry) (modelF : String → List ℚ → ℚ)
    (sd : StudentData) (subject_id : Option ℤ)
    (h : (predict_university_marks reg modelF sd subject_id).success = false) :
    (predict_university_marks reg modelF sd subject_id).error ≠ none := by
  unfold predict_university_marks at h ⊢
  cases hres : resolve_model reg subject_id with
  | error e => simp
  | ok k =>
    rw [hres] at h
    simp at h

/-- Claim C7: batch prediction yields exactly one result per input student,
in input order, each annotated with that student's ids; a failing item
carries `success: false` with an error and leaves every other item's outcome
unchanged (an item's result depends only on that student's record); the
batch call is total, and the surrounding response counts the successes. -/
theorem C7_batch_isolated (reg : Registry) (modelF : String → List ℚ → ℚ)
    (students_data : List StudentData) (subject_id : Option ℤ) :
    (batch_predict reg modelF students_data subject_id).length = students_data.length ∧
    (∀ i (hi : i < students_data.length)
        (hi2 : i < (batch_predict reg modelF students_data subject_id).length),
      (batch_predict reg modelF students_data subject_id)[i] =
        { predict_university_marks reg modelF students_data[i] subject_id with
            student_id := students_data[i].student_id
            subject_id := students_data[i].subject_id } ∧
      ((predict_university_marks reg modelF students_data[i] subject_id).success = false →
        (batch_predict reg modelF students_data subject_id)[i].success = false ∧
        (batch_predict reg modelF students_data subject_id)[i].error ≠ none)) ∧
    (∀ (students2 : List StudentData) (i : ℕ) (hi : i < students_data.length)
        (hj : i < students2.length)
        (hi2 : i < (batch_predict reg modelF students_data subject_id).length)
        (hj2 : i < (batch_predict reg modelF students2 subject_id).length),
      students_data[i] = students2[i] →
      (batch_predict reg modelF students_data subject_id)[i] =
        (batch_predict reg modelF students2 subject_id)[i]) ∧
    batch_successful_predictions (batch_predict reg modelF students_data subject_id) =
      (students_data.filter (fun s =>
        (predict_university_marks reg modelF s subject_id).success)).length := by
  refine ⟨by simp [batch_predict], fun i hi hi2 => ⟨?_, fun hfail => ?_⟩,
    fun students2 i hi hj hi2 hj2 heq => ?_, ?_⟩
  · simp [batch_predict]
  · have hgot : (batch_predict reg modelF students_data subject_id)[i] =
        { predict_university_marks reg modelF students_data[i] subject_id with
            student_id := students_data[i].student_id
            subject_id := students_data[i].subject_id } := by
      simp [batch_predict]
    rw [hgot]
    refine ⟨hfail, ?_⟩
    have := predict_failure_has_error reg modelF students_data[i] subject_id hfail
    simpa using this
  · simp [batch_predict, heq]
  · unfold batch_successful_predictions batch_predict
    rw [List.filter_map]
    rw [List.length_map]
    rfl

/-- Witness for C7: a two-student batch against an empty registry returns
two per-student results, the second annotated with its student id, failed
and carrying an error, and the success count is 0. -/
theorem C7_witness :
    (batch_predict { mem := [], disk := [] } (fun _ _ => 0)
      [{ student_id := some 1, subject_id := some 3, marks := [("series_test_1", 40)] },
       { student_id := some 2 }] (some 3)).length = 2 ∧
    (batch_predict { mem := [], disk := [] } (fun _ _ => 0)
      [{ student_id := some 1, subject_id := some 3, marks := [("series_test_1", 40)] },
       { student_id := some 2 }] (some 3))[1].success = false ∧
    (batch_predict { mem := [], disk := [] } (fun _ _ => 0)
      [{ student_id := some 1, subject_id := some 3, marks := [("series_test_1", 40)] },
       { student_id := some 2 }] (some 3))[1].error ≠ none ∧
    (batch_predict { mem := [], disk := [] } (fun _ _ => 0)
      [{ student_id := some 1, subject_id := some 3, marks := [("series_test_1", 40)] },
       { student_id := some 2 }] (some 3))[1].student_id = some 2 ∧
    batch_successful_predictions (batch_predict { mem := [], disk := [] } (fun _ _ => 0)
      [{ student_id := some 1, subject_id := some 3, marks := [("series_test_1", 40)] },
       { student_id := some 2 }] (some 3)) = 0 := by
  have h := C7_batch_isolated { mem := [], disk := [] } (fun _ _ => 0)
    [{ student_id := some 1, subject_id := some 3, marks := [("series_test_1", 40)] },
     { student_id := some 2 }] (some 3)
  have hi2 : 1 < (batch_predict { mem := [], disk := [] } (fun _ _ => 0)
      [{ student_id := some 1, subject_id := some 3, marks := [("series_test_1", 40)] },
       { student_id := some 2 }] (some 3)).length := by
    rw [h.1]
    norm_num
  obtain ⟨heq, himp⟩ := h.2.1 1 (by norm_num) hi2
  have hfail : (predict_university_marks { mem := [], disk := [] } (fun _ _ => 0)
      ({ student_id := some 2 } : StudentData) (some 3)).success = false := rfl
  obtain ⟨hs, he⟩ := himp hfail
  refine ⟨h.1, hs, he, ?_, ?_⟩
  · rw [heq]
    rfl
  · rw [h.2.2.2]
    rfl

theorem select_best_model_concat (l : List (String × Metrics)) (x : String × Metrics) :
    select_best_model (l ++ [x]) =
      match select_best_model l with
      | none => some x
      | some b => if x.2.mae < b.2.mae then some x else some b := by
  unfold select_best_model
  rw [List.foldl_append]
  cases (l.foldl (fun best r =>
    match best with
    | none => some r
    | some b => if r.2.mae < b.2.mae then some r else best) none) with
  | none => rfl
  | some b => rfl

theorem select_best_spec (l : List (String × Metrics)) (hne : l ≠ []) :
    ∃ i, ∃ hi : i < l.length,
      select_best_model l = some l[i] ∧
      (∀ j (hj : j < l.length), l[i].2.mae ≤ l[j].2.mae) ∧
      (∀ j (hj : j < l.length), j < i → l[i].2.mae < l[j].2.mae) := by
  induction l using List.reverseRecOn with
  | nil => exact absurd rfl hne
  | append_singleton l x ih =>
    by_cases hl : l = []
    · subst hl
      refine ⟨0, by norm_num, rfl, ?_, ?_⟩
      · intro j hj
        have hj0 : j = 0 := by
          simp at hj
          omega
        subst hj0
        exact le_refl _
      · intro j hj hlt
        omega
    · obtain ⟨i, hi, hsel, hmin, hfirst⟩ := ih hl
      rw [select_best_model_concat, hsel]
      dsimp only
      by_cases hx : x.2.mae < l[i].2.mae
      · refine ⟨l.length, by simp, ?_, ?_, ?_⟩
        · rw [if_pos hx]
          rw [List.getElem_concat_length _ _ _ rfl]
        · intro j hj
          rw [List.getElem_concat_length _ _ _ rfl]
          rcases Nat.lt_or_ge j l.length with hjl | hjl
          · rw [List.getElem_append_left hjl]
            exact le_of_lt (lt_of_lt_of_le hx (hmin j hjl))
          · have hj' : j = l.length := by
              simp at hj
              omega
            subst hj'
            rw [List.getElem_concat_length _ _ _ rfl]
        · intro j hj hlt
          rw [List.getElem_concat_length _ _ _ rfl, List.getElem_append_left hlt]
          exact lt_of_lt_of_le hx (hmin j hlt)
      · have hi' : i < (l ++ [x]).length := by
          simp
          omega
        refine ⟨i, hi', ?_, ?_, ?_⟩
        · rw [if_neg hx]
          rw [List.getElem_append_left hi]
        · intro j hj
          rw [List.getElem_append_left hi]
          rcases Nat.lt_or_ge j l.length with hjl | hjl
          · rw [List.getElem_append_left hjl]
            exact hmin j hjl
          · have hj' : j = l.length := by
              simp at hj
              omega
            subst hj'
            rw [List.getElem_concat_length _ _ _ rfl]
            exact le_of_not_lt hx
        · intro j hj hlt
          rw [List.getElem_append_left hi, List.getElem_append_left (lt_trans hlt hi)]
          exact hfirst j (lt_trans hlt hi) hlt

/-- Claim C8. The selection loop of the trainer at lines 121–228 does pick
exactly the first candidate (in stable iteration order) attaining the lowest
test MAE and packages every candidate's metrics in
`all_models_performance` — but, as with C1, Python binds
`PredictionService.train_model` to the unrelated definition at line 560,
which fits a single regressor and returns a bare `(model, metrics)` tuple,
so the described behaviour is unreachable through the trainer entry point. -/
theorem C8_trainer_selection (model_results : List (String × Metrics))
    (hne : model_results ≠ []) :
    ∃ i, ∃ hi : i < model_results.length,
      select_best_model model_results = some model_results[i] ∧
      (∀ j (hj : j < model_results.length),
        model_results[i].2.mae ≤ model_results[j].2.mae) ∧
      (∀ j (hj : j < model_results.length), j < i →
        model_results[i].2.mae < model_results[j].2.mae) ∧
      build_training_results model_results = some
        { best_model := model_results[i].1
          model_performance := model_results[i].2
          all_models_performance := model_results } := by
  obtain ⟨i, hi, hsel, hmin, hfirst⟩ := select_best_spec model_results hne
  refine ⟨i, hi, hsel, hmin, hfirst, ?_⟩
  unfold build_training_results
  rw [hsel]
  rfl

/-- Witness for C8: with `random_forest` and `xgboost` tied on MAE 5, the
first candidate in iteration order is selected. -/
theorem C8_witness :
    select_best_model
      [("random_forest", { mae := 5, mse := 30, rmse := 6, r2 := 1 }),
       ("xgboost", { mae := 5, mse := 28, rmse := 6, r2 := 1 })] =
      some ("random_forest", { mae := 5, mse := 30, rmse := 6, r2 := 1 }) := by
  obtain ⟨i, hi, hsel, hmin, hfirst, hbuild⟩ := C8_trainer_selection
    [("random_forest", { mae := 5, mse := 30, rmse := 6, r2 := 1 }),
     ("xgboost", { mae := 5, mse := 28, rmse := 6, r2 := 1 })] (by simp)
  have hi2 : i < 2 := by simpa using hi
  interval_cases i
  · exact hsel
  · exfalso
    have := hfirst 0 (by norm_num) (by norm_num)
    norm_num at this

theorem dictGet_of_mem {d : List (String × ℚ)} {k : String} (h : dictMem d k = true)
    (a b : ℚ) : dictGet d k a = dictGet d k b := by
  unfold dictGet
  cases hf : d.find? (fun p => p.1 = k) with
  | some p => rfl
  | none =>
    exfalso
    unfold dictMem at h
    rw [List.any_eq_true] at h
    obtain ⟨p, hp, hpk⟩ := h
    rw [List.find?_eq_none] at hf
    exact absurd hpk (by simpa using hf p hp)

/-- Claim C9: in training-table construction an internal mark whose key is
present with stored percentage 0 passes the ≥2-internal-keys inclusion
filter (membership, not value), is never imputed (the row keeps the 0), and
the 0 is folded into the recomputed average feature — whereas the
prediction-time feature builder fills a zero-valued series_test_1 with the
positive mean of the present marks. -/
theorem C9_present_zero_mark (g : MarksGroup)
    (hmem : dictMem g.marks "series_test_1" = true)
    (hz : dictGet g.marks "series_test_1" 0 = 0)
    (huni : dictMem g.marks "university" = true)
    (hother : dictMem g.marks "series_test_2" = true ∨
      dictMem g.marks "lab_internal" = true) :
    ∃ row, training_row_of_group g = some row ∧
      row.series_test_1_percentage = 0 ∧
      row.average_internal_percentage =
        (0 + row.series_test_2_percentage + row.lab_internal_percentage) / 3 ∧
      (∀ sd : StudentData, sd.marks = g.marks →
        (∃ e ∈ ["series_test_1", "series_test_2", "lab_internal"],
          0 < dictGet g.marks e 0) →
        ∃ m, 0 < m ∧ (prepare_prediction_features sd).head? = some m) := by
  have hs1 : dictGet g.marks "series_test_1" (group_avg_internal g) = 0 :=
    (dictGet_of_mem hmem _ 0).trans hz
  have hcnt : 2 ≤ internal_exam_count g := by
    unfold internal_exam_count
    rcases hother with h | h <;>
      by_cases hlab : dictMem g.marks "lab_internal" = true <;>
        by_cases hs2 : dictMem g.marks "series_test_2" = true <;>
          simp_all [List.filter]
  unfold training_row_of_group
  rw [if_pos huni, if_pos hcnt]
  refine ⟨_, rfl, hs1, ?_, ?_⟩
  · show npMean [dictGet g.marks "series_test_1" (group_avg_internal g),
      dictGet g.marks "series_test_2" (group_avg_internal g),
      dictGet g.marks "lab_internal" (group_avg_internal g)] = _
    rw [hs1]
    unfold npMean
    norm_num
  · intro sd hsdm hpos
    have hz' : dictGet sd.marks "series_test_1" 0 = 0 := by
      rw [hsdm]
      exact hz
    have hne : ([dictGet sd.marks "series_test_1" 0, dictGet sd.marks "series_test_2" 0,
        dictGet sd.marks "lab_internal" 0].filter (fun m => 0 < m)) ≠ [] := by
      obtain ⟨e, he, hp⟩ := hpos
      rw [← hsdm] at hp
      simp only [List.mem_cons, List.not_mem_nil, or_false] at he
      rcases he with he | he | he
      · subst he
        refine List.ne_nil_of_mem (a := dictGet sd.marks "series_test_1" 0)
          (List.mem_filter.mpr ⟨by simp, by simpa using hp⟩)
      · subst he
        refine List.ne_nil_of_mem (a := dictGet sd.marks "series_test_2" 0)
          (List.mem_filter.mpr ⟨by simp, by simpa using hp⟩)
      · subst he
        refine List.ne_nil_of_mem (a := dictGet sd.marks "lab_internal" 0)
          (List.mem_filter.mpr ⟨by simp, by simpa using hp⟩)
    have havg : 0 < npMean ([dictGet sd.marks "series_test_1" 0,
        dictGet sd.marks "series_test_2" 0,
        dictGet sd.marks "lab_internal" 0].filter (fun m => 0 < m)) :=
      npMean_pos hne (fun x hx => by simpa using (List.mem_filter.mp hx).2)
    have hempty : ([dictGet sd.marks "series_test_1" 0, dictGet sd.marks "series_test_2" 0,
        dictGet sd.marks "lab_internal" 0].filter (fun m => 0 < m)).isEmpty = false := by
      simpa [List.isEmpty_iff] using hne
    have havg2 : 0 < npMean ([dictGet sd.marks "series_test_2" 0,
        dictGet sd.marks "lab_internal" 0].filter (fun m => 0 < m)) := by
      have h' := havg
      rw [hz'] at h'
      simpa using h'
    have hcond : ¬ (dictGet sd.marks "series_test_2" 0 ≤ 0 ∧
        dictGet sd.marks "lab_internal" 0 ≤ 0) := by
      rintro ⟨ha, hb⟩
      have hfil : ([dictGet sd.marks "series_test_2" 0,
          dictGet sd.marks "lab_internal" 0].filter (fun m => 0 < m)) = [] := by
        simp [not_lt.mpr ha, not_lt.mpr hb, List.filter]
      rw [hfil] at havg2
      simp [npMean] at havg2
    refine ⟨_, havg2, ?_⟩
    simp only [prepare_prediction_features, hempty, Bool.false_eq_true, if_false, hz']
    simp [havg2, havg2.not_le, hcond]

/-- Witness for C9: a group with series_test_1 stored as 0, series_test_2 at
40 and a university mark yields a row keeping the 0 and averaging it in,
while the feature builder fills the same marks to a positive value. -/
theorem C9_witness :
    ∃ row, training_row_of_group
      { student_id := 1, subject_id := 1, subject_type := "theory", semester := 3,
        marks := [("series_test_1", 0), ("series_test_2", 40), ("university", 70)] } =
        some row ∧
      row.series_test_1_percentage = 0 ∧
      row.average_internal_percentage =
        (0 + row.series_test_2_percentage + row.lab_internal_percentage) / 3 ∧
      ∃ m, 0 < m ∧ (prepare_prediction_features
        { marks := [("series_test_1", 0), ("series_test_2", 40), ("university", 70)] }).head? =
        some m := by
  obtain ⟨row, hrow, h0, havg, hcontrast⟩ := C9_present_zero_mark
    { student_id := 1, subject_id := 1, subject_type := "theory", semester := 3,
      marks := [("series_test_1", 0), ("series_test_2", 40), ("university", 70)] }
    (by decide) (by decide) (by decide) (Or.inl (by decide))
  exact ⟨row, hrow, h0, havg, hcontrast _ rfl ⟨"series_test_2", by simp, by decide⟩⟩

/-- Claim C10: `save_prediction` inserts a brand-new row with
`is_visible_to_student = False`; its update path rewrites only
`predicted_marks`, `confidence_score`, `input_features`, `model_version`
and `created_at`, preserving the visibility flag (and the row's identity
columns) and leaving non-matching rows untouched; and
`toggle_prediction_visibility` is the operation that sets the flag, on every
row of the subject. -/
theorem C10_save_prediction_visibility (db : List PredRow) (fresh_id : ℤ) (now : ℕ)
    (student_id subject_id : ℤ) (predicted_marks confidence_score : ℚ)
    (input_features model_version : String) :
    ((db.filter (fun r => r.student_id = student_id ∧
        r.subject_id = subject_id)).isEmpty = true →
      save_prediction db fresh_id now student_id subject_id predicted_marks
        confidence_score input_features model_version =
        (db ++ [{ id := fresh_id, student_id := student_id, subject_id := subject_id,
                  predicted_marks := predicted_marks,
                  confidence_score := confidence_score,
                  input_features := input_features, model_version := model_version,
                  is_visible_to_student := false, created_at := now }],
         some fresh_id)) ∧
    (¬ (db.filter (fun r => r.student_id = student_id ∧
        r.subject_id = subject_id)).isEmpty = true →
      (save_prediction db fresh_id now student_id subject_id predicted_marks
        confidence_score input_features model_version).1.length = db.length ∧
      ∀ i (hi : i < db.length)
          (hi2 : i < (save_prediction db fresh_id now student_id subject_id
            predicted_marks confidence_score input_features model_version).1.length),
        ((save_prediction db fresh_id now student_id subject_id predicted_marks
            confidence_score input_features model_version).1[i].is_visible_to_student =
          db[i].is_visible_to_student ∧
         (save_prediction db fresh_id now student_id subject_id predicted_marks
            confidence_score input_features model_version).1[i].id = db[i].id) ∧
        (¬ (db[i].student_id = student_id ∧ db[i].subject_id = subject_id) →
          (save_prediction db fresh_id now student_id subject_id predicted_marks
            confidence_score input_features model_version).1[i] = db[i]) ∧
        (db[i].student_id = student_id ∧ db[i].subject_id = subject_id →
          (save_prediction db fresh_id now student_id subject_id predicted_marks
            confidence_score input_features model_version).1[i] =
            { db[i] with predicted_marks := predicted_marks,
                         confidence_score := confidence_score,
                         input_features := input_features,
                         model_version := model_version,
                         created_at := now })) ∧
    (∀ (faculty_subjects : List (ℤ × ℤ × ℤ)) (current_year : ℤ) (is_visible : Bool)
        (faculty_id : Option ℤ) (db2 : List PredRow) (n : ℕ),
      toggle_prediction_visibility db faculty_subjects current_year subject_id
        is_visible faculty_id = Except.ok (db2, n) →
      ∀ i (hi : i < db.length) (hi2 : i < db2.length),
        (db[i].subject_id = subject_id → db2[i].is_visible_to_student = is_visible) ∧
        (db[i].subject_id ≠ subject_id → db2[i] = db[i])) := by
  refine ⟨fun hnew => ?_, fun hupd => ?_, fun fs year vis fid db2 n htog i hi hi2 => ?_⟩
  · unfold save_prediction
    rw [if_pos hnew]
  · have hsv : (save_prediction db fresh_id now student_id subject_id predicted_marks
        confidence_score input_features model_version).1 =
        db.map (fun r =>
          if r.student_id = student_id ∧ r.subject_id = subject_id then
            { r with predicted_marks := predicted_marks,
                     confidence_score := confidence_score,
                     input_features := input_features,
                     model_version := model_version,
                     created_at := now }
          else r) := by
      unfold save_prediction
      rw [if_neg hupd]
    rw [hsv]
    refine ⟨by simp, fun i hi hi2 => ?_⟩
    rw [List.getElem_map]
    by_cases hm : db[i].student_id = student_id ∧ db[i].subject_id = subject_id
    · rw [if_pos hm]
      exact ⟨⟨rfl, rfl⟩, fun hnm => absurd hm hnm, fun _ => rfl⟩
    · rw [if_neg hm]
      exact ⟨⟨rfl, rfl⟩, fun _ => rfl, fun hm2 => absurd hm2 hm⟩
  · have hdb2 : db2 = db.map (fun r =>
        if r.subject_id = subject_id then { r with is_visible_to_student := vis }
        else r) := by
      unfold toggle_prediction_visibility at htog
      split_ifs at htog
      rw [Except.ok.injEq, Prod.mk.injEq] at htog
      exact htog.1.symm
    subst hdb2
    rw [List.getElem_map]
    constructor
    · intro hs
      rw [if_pos hs]
    · intro hs
      rw [if_neg hs]

/-- Witness for C10: a fresh insert is invisible; updating a row that was
toggled visible keeps it visible. -/
theorem C10_witness :
    save_prediction [] 1 0 7 3 50 1 "f" "2.0.0" =
      ([{ id := 1, student_id := 7, subject_id := 3, predicted_marks := 50,
          confidence_score := 1, input_features := "f", model_version := "2.0.0",
          is_visible_to_student := false, created_at := 0 }], some 1) ∧
    (save_prediction
      [{ id := 1, student_id := 7, subject_id := 3, predicted_marks := 50,
         confidence_score := 1, input_features := "f", model_version := "2.0.0",
         is_visible_to_student := true, created_at := 0 }]
      2 5 7 3 60 1 "g" "2.0.0").1[0].is_visible_to_student = true := by
  constructor
  · exact (C10_save_prediction_visibility [] 1 0 7 3 50 1 "f" "2.0.0").1 (by decide)
  · have h := (C10_save_prediction_visibility
      [{ id := 1, student_id := 7, subject_id := 3, predicted_marks := 50,
         confidence_score := 1, input_features := "f", model_version := "2.0.0",
         is_visible_to_student := true, created_at := 0 }]
      2 5 7 3 60 1 "g" "2.0.0").2.1 (by decide)
    have h0 := (h.2 0 (by norm_num) (by rw [h.1]; norm_num)).1.1
    rw [h0]
    rfl

end VisionGrade
